import Mathlib

/-!
# Call session signaling and peer-media negotiation: a shallow embedding

This file embeds the call subsystem of the repository (the `useVideoCall`
hook in `src/hooks`, together with the `call_sessions` table definition from
the database schema) as executable Lean definitions, and settles the frozen
claims about it.

Modelling conventions:
* Opaque identifiers (user ids, call ids), timestamps, session descriptions
  (SDP blobs) and network-path candidates are `Nat`.
* The `call_sessions` table is a `List CallSession`; the client row shape
  mirrors the `CallSession` interface of the source.
* The React state and refs of `useVideoCall` (`localStream`, `remoteStream`,
  `isCallActive`, `incomingCall`, `currentCall`, `isVideoEnabled`,
  `isAudioEnabled`, `peerConnection`) become fields of `ControllerState`;
  state setters become functional record updates applied in program order.
* Asynchronous environment results (the outcome of `getUserMedia`, the SDP
  produced by `createOffer`, freshly generated row ids) are passed in as
  explicit parameters.
* Observable side effects (store writes, channel sends, media requests,
  track operations, peer-connection operations, `console.error` logs) are
  recorded in an explicit `Effect` trace returned alongside the new state.
-/

/-- Enum `call_type` of the `call_sessions` table. -/
inductive CallType
  | video
  | audio
deriving DecidableEq, Repr

/-- Enum `status` of the `call_sessions` table. -/
inductive CallStatus
  | pending
  | accepted
  | rejected
  | ended
  | missed
deriving DecidableEq, Repr

/-- Values of `RTCPeerConnection.connectionState`. -/
inductive ConnState
  | fresh
  | connecting
  | connected
  | disconnected
  | failed
  | closed
deriving DecidableEq, Repr

/-- Kind of a local media track (`getVideoTracks` / `getAudioTracks`). -/
inductive TrackKind
  | video
  | audio
deriving DecidableEq, Repr

/-- A media track: its kind and its mutable `enabled` flag. -/
structure Track where
  kind : TrackKind
  enabled : Bool
deriving DecidableEq, Repr

/-- A row of `call_sessions`, matching the client `CallSession` interface. -/
structure CallSession where
  id : Nat
  caller_id : Nat
  receiver_id : Nat
  call_type : CallType
  status : CallStatus
  started_at : Option Nat
  ended_at : Option Nat
deriving DecidableEq, Repr

/-- The peer connection object: descriptions, added tracks, connection state. -/
structure PeerConnection where
  localDescription : Option Nat
  remoteDescription : Option Nat
  tracks : List Track
  connectionState : ConnState
deriving DecidableEq, Repr

/-- A fresh `RTCPeerConnection` as produced by `new RTCPeerConnection(rtcConfig)`. -/
def newPeerConnection : PeerConnection :=
  { localDescription := none, remoteDescription := none, tracks := [], connectionState := .fresh }

/-- Realtime channel names used by the application: the `presence` channel,
the `call_events` postgres-changes channel, the per-peer `typing:` channels
of the chat page, and the per-call broadcast channels named by call id. -/
inductive Channel
  | presence
  | callEvents
  | typing (peerId : Nat)
  | call (callId : Nat)
deriving DecidableEq, Repr

/-- Signaling broadcast payloads: the tagged union sent over per-call channels. -/
inductive SignalMsg
  | callOffer (sdp : Nat) (callId : Nat) (ct : CallType)
  | answer (sdp : Nat) (callId : Nat)
  | iceCandidate (cand : Nat) (callId : Nat)
deriving DecidableEq, Repr

/-- The three `.update(...)` patch shapes the hook sends to `call_sessions`. -/
inductive CallUpdate
  | toAccepted (t : Nat)
  | toRejected (t : Nat)
  | toEnded (t : Nat)
deriving DecidableEq, Repr

/-- Observable side effects of a controller operation, in program order. -/
inductive Effect
  | storeInsert (row : CallSession)
  | storeUpdate (id : Nat) (u : CallUpdate)
  | channelSend (ch : Channel) (msg : SignalMsg)
  | mediaRequest (video : Bool) (audio : Bool)
  | pcAddTrack (t : Track)
  | pcCreateOffer
  | pcSetLocalDescription (sdp : Nat)
  | pcSetRemoteDescription (sdp : Nat)
  | pcCreateAnswer
  | pcAddIceCandidate (cand : Nat)
  | pcClose
  | trackStop (t : Track)
  | logError
deriving DecidableEq, Repr

/-- Failure of `navigator.mediaDevices.getUserMedia`. -/
inductive MediaError
  | accessDenied
deriving DecidableEq, Repr

/-- A database error surfaced by the store client. -/
inductive DbError
  | checkViolation
deriving DecidableEq, Repr

/-- The React state and refs owned by one `useVideoCall` instance. -/
structure ControllerState where
  localStream : Option (List Track)
  remoteStream : Option (List Track)
  isCallActive : Bool
  incomingCall : Option CallSession
  currentCall : Option CallSession
  isVideoEnabled : Bool
  isAudioEnabled : Bool
  peerConnection : Option PeerConnection
deriving DecidableEq, Repr

/-- The initial state of the hook (`useState` initial values, null refs). -/
def initState : ControllerState :=
  { localStream := none, remoteStream := none, isCallActive := false,
    incomingCall := none, currentCall := none,
    isVideoEnabled := true, isAudioEnabled := true, peerConnection := none }

/-- Apply one update patch to a row, as the store executes it. -/
def applyUpdate (u : CallUpdate) (r : CallSession) : CallSession :=
  match u with
  | .toAccepted t => { r with status := .accepted, started_at := some t }
  | .toRejected t => { r with status := .rejected, ended_at := some t }
  | .toEnded t => { r with status := .ended, ended_at := some t }

/-- Store update `update(...).eq(id, ...)`: patch every row whose `id` matches.  The
schema constrains `status` to the five-value enum (which every patch
satisfies by construction) but places no restriction on status transitions,
and no trigger or policy guards them. -/
def updateWhere (db : List CallSession) (id : Nat) (u : CallUpdate) : List CallSession :=
  db.map fun r => if r.id = id then applyUpdate u r else r

/-- Store insert into `call_sessions`: the schema enforces
`CHECK (caller_id != receiver_id)`, so an insert with equal participant ids
fails with a check violation and adds no row; otherwise the new row is
created in status `pending` with no timestamps, and returned
(`.select().single()`). -/
def insertCallSession (db : List CallSession) (newId caller receiver : Nat)
    (ct : CallType) : Except DbError (List CallSession × CallSession) :=
  if caller = receiver then
    .error .checkViolation
  else
    let row : CallSession :=
      { id := newId, caller_id := caller, receiver_id := receiver,
        call_type := ct, status := .pending, started_at := none, ended_at := none }
    .ok (db ++ [row], row)

/-- The `initializePeerConnection` step: creates the peer connection unless one
already exists (`if (peerConnection.current) return`). -/
def initPeerConnection (s : ControllerState) : ControllerState :=
  match s.peerConnection with
  | some _ => s
  | none => { s with peerConnection := some newPeerConnection }

/-- Apply a function to the peer connection if one exists
(the `peerConnection.current?.` optional-chaining pattern). -/
def pcMap (s : ControllerState) (f : PeerConnection → PeerConnection) : ControllerState :=
  { s with peerConnection := s.peerConnection.map f }

/-- The `getUserMedia(video, audio)` step: requests capture; on success stores the
stream in `localStream` and returns it, on failure logs and rethrows. -/
def getUserMedia (s : ControllerState) (video audio : Bool)
    (res : Except MediaError (List Track)) :
    ControllerState × List Effect × Except MediaError (List Track) :=
  match res with
  | .ok stream => ({ s with localStream := some stream }, [.mediaRequest video audio], .ok stream)
  | .error e => (s, [.mediaRequest video audio, .logError], .error e)

/-- The `startCall(receiverId, callType)` operation.  `user` is the authenticated user
(`if (!user) return`); `newId` is the id the store generates for the row;
`mediaRes` is the environment's answer to the media request; `offerSdp` is
the description produced by `createOffer`.  On insert error the handler
logs and returns; a media failure is caught by the outer catch, which only
logs. -/
def startCall (user : Option Nat) (s : ControllerState) (db : List CallSession)
    (receiverId : Nat) (callType : CallType) (newId : Nat)
    (mediaRes : Except MediaError (List Track)) (offerSdp : Nat) :
    ControllerState × List CallSession × List Effect :=
  match user with
  | none => (s, db, [])
  | some uid =>
    match insertCallSession db newId uid receiverId callType with
    | .error _ => (s, db, [.logError])
    | .ok (db1, callSession) =>
      let s1 := { s with currentCall := some callSession }
      let gum := getUserMedia s1 (callType = .video) true mediaRes
      match gum.2.2 with
      | .error _ => (gum.1, db1, .storeInsert callSession :: gum.2.1 ++ [.logError])
      | .ok stream =>
        let s3 := initPeerConnection gum.1
        let s4 := pcMap s3 fun pc => { pc with tracks := pc.tracks ++ stream }
        let s5 := pcMap s4 fun pc => { pc with localDescription := some offerSdp }
        (s5, db1,
          .storeInsert callSession :: gum.2.1
            ++ stream.map Effect.pcAddTrack
            ++ [.pcCreateOffer, .pcSetLocalDescription offerSdp,
                .channelSend (.call callSession.id) (.callOffer offerSdp callSession.id callType)])

/-- The `acceptCall(callId)` operation: guarded by the `currentCall` check; updates the
row to `accepted` with `started_at`, marks the call active, clears the
incoming-call view, acquires media, ensures a peer connection exists and
adds the local tracks.  It sets no remote description, creates no answer
and sends nothing. -/
def acceptCall (s : ControllerState) (db : List CallSession) (callId : Nat)
    (mediaRes : Except MediaError (List Track)) (now : Nat) :
    ControllerState × List CallSession × List Effect :=
  match s.currentCall with
  | none => (s, db, [])
  | some cur =>
    let db1 := updateWhere db callId (.toAccepted now)
    let s1 := { s with isCallActive := true, incomingCall := none }
    let gum := getUserMedia s1 (cur.call_type = .video) true mediaRes
    match gum.2.2 with
    | .error _ => (gum.1, db1, .storeUpdate callId (.toAccepted now) :: gum.2.1 ++ [.logError])
    | .ok stream =>
      let s3 := initPeerConnection gum.1
      let s4 := pcMap s3 fun pc => { pc with tracks := pc.tracks ++ stream }
      (s4, db1,
        .storeUpdate callId (.toAccepted now) :: gum.2.1 ++ stream.map Effect.pcAddTrack)

/-- The `rejectCall(callId)` operation: updates the row to `rejected` with `ended_at` and
clears the incoming and current call views. -/
def rejectCall (s : ControllerState) (db : List CallSession) (callId : Nat)
    (now : Nat) : ControllerState × List CallSession × List Effect :=
  ({ s with incomingCall := none, currentCall := none },
   updateWhere db callId (.toRejected now),
   [.storeUpdate callId (.toRejected now)])

/-- The `endCall()` operation: if a current call exists, updates its row to `ended` with
`ended_at`; closes the peer connection if one exists and nulls the ref;
stops every local track if a local stream exists; then resets
`localStream`, `remoteStream`, `isCallActive`, `currentCall` and
`incomingCall` (the enabled flags are not reset). -/
def endCall (s : ControllerState) (db : List CallSession) (now : Nat) :
    ControllerState × List CallSession × List Effect :=
  let storePart : List CallSession × List Effect :=
    match s.currentCall with
    | some c => (updateWhere db c.id (.toEnded now), [.storeUpdate c.id (.toEnded now)])
    | none => (db, [])
  let closeEffs : List Effect :=
    match s.peerConnection with
    | some _ => [.pcClose]
    | none => []
  let stopEffs : List Effect :=
    match s.localStream with
    | some stream => stream.map Effect.trackStop
    | none => []
  ({ localStream := none, remoteStream := none, isCallActive := false,
     incomingCall := none, currentCall := none,
     isVideoEnabled := s.isVideoEnabled, isAudioEnabled := s.isAudioEnabled,
     peerConnection := none },
   storePart.1, storePart.2 ++ closeEffs ++ stopEffs)

/-- The `stream.getVideoTracks()` and `stream.getAudioTracks()` accessors. -/
def getTracks (k : TrackKind) (ts : List Track) : List Track :=
  ts.filter fun t => t.kind = k

/-- Flip the `enabled` flag of the first track of the given kind, in place. -/
def flipFirst (k : TrackKind) : List Track → List Track
  | [] => []
  | t :: ts => if t.kind = k then { t with enabled := !t.enabled } :: ts else t :: flipFirst k ts

/-- The `toggleVideo()` operation: if a local stream with a video track exists, flips that
track's `enabled` flag and records the new flag; otherwise does nothing. -/
def toggleVideo (s : ControllerState) : ControllerState × List Effect :=
  match s.localStream with
  | none => (s, [])
  | some stream =>
    match (getTracks .video stream).head? with
    | none => (s, [])
    | some t =>
      ({ s with localStream := some (flipFirst .video stream),
                isVideoEnabled := !t.enabled }, [])

/-- The `toggleAudio()` operation: the audio counterpart of `toggleVideo`. -/
def toggleAudio (s : ControllerState) : ControllerState × List Effect :=
  match s.localStream with
  | none => (s, [])
  | some stream =>
    match (getTracks .audio stream).head? with
    | none => (s, [])
    | some t =>
      ({ s with localStream := some (flipFirst .audio stream),
                isAudioEnabled := !t.enabled }, [])

/-- Events delivered to the controller by its environment: postgres-changes
INSERT and UPDATE notifications on `call_sessions` (via the `call_events`
channel), and realtime broadcast messages. -/
inductive IncomingEvent
  | insertEvt (cs : CallSession)
  | updateEvt (cs : CallSession)
  | broadcastEvt (ch : Channel) (msg : SignalMsg)
deriving DecidableEq, Repr

/-- The `call_events` subscription handlers of `useVideoCall`.  The INSERT
handler (filtered to `receiver_id = user.id`) surfaces a `pending` row as
the incoming and current call; the UPDATE handler refreshes the current
call view and runs `endCall` when the row reached `ended` or `rejected`.
No handler is registered for broadcast messages anywhere in the repository
(the hook subscribes only to postgres changes), so a broadcast event
changes nothing. -/
def handleCallEvents (userId : Nat) (s : ControllerState) (db : List CallSession)
    (now : Nat) : IncomingEvent → ControllerState × List CallSession × List Effect
  | .insertEvt cs =>
    if cs.receiver_id = userId then
      if cs.status = .pending then
        ({ s with incomingCall := some cs, currentCall := some cs }, db, [])
      else (s, db, [])
    else (s, db, [])
  | .updateEvt cs =>
    match s.currentCall with
    | some cur =>
      if cur.id = cs.id then
        let s1 := { s with currentCall := some cs }
        if cs.status = .ended ∨ cs.status = .rejected then endCall s1 db now
        else (s1, db, [])
      else (s, db, [])
    | none => (s, db, [])
  | .broadcastEvt _ _ => (s, db, [])

/-- The body of the `endCall` closure, distinguishing the snapshot of React
state it captured when it was created from the live state it acts on.  The
guards on the store write and on the track stops read the closure's
captured `currentCall` and `localStream`; the `peerConnection` ref is read
live (refs are not snapshotted), and the state setters reset the live
state.  A call through fresh closures is the special case
`captured = live`, which is exactly `endCall`. -/
def endCallClosure (captured live : ControllerState) (db : List CallSession)
    (now : Nat) : ControllerState × List CallSession × List Effect :=
  let storePart : List CallSession × List Effect :=
    match captured.currentCall with
    | some c => (updateWhere db c.id (.toEnded now), [.storeUpdate c.id (.toEnded now)])
    | none => (db, [])
  let closeEffs : List Effect :=
    match live.peerConnection with
    | some _ => [.pcClose]
    | none => []
  let stopEffs : List Effect :=
    match captured.localStream with
    | some stream => stream.map Effect.trackStop
    | none => []
  ({ localStream := none, remoteStream := none, isCallActive := false,
     incomingCall := none, currentCall := none,
     isVideoEnabled := live.isVideoEnabled, isAudioEnabled := live.isAudioEnabled,
     peerConnection := none },
   storePart.1, storePart.2 ++ closeEffs ++ stopEffs)

/-- The `onconnectionstatechange` handler.  It is installed once, inside
`initializePeerConnection`, and never refreshed afterwards (that function
returns early while a peer connection exists), so when the connection
reports `disconnected` it invokes the `endCall` closure captured at install
time: `captured` is the React state snapshot those closures hold
(`currentCall` and `localStream` as of the installing render, both still
unset at that point on the caller's path, `localStream` unset on both
paths), while the `peerConnection` ref and the state setters act on the
`live` state.  The `connectionState` test itself reads the live ref. -/
def handleConnectionStateChange (captured live : ControllerState)
    (db : List CallSession) (now : Nat) :
    ControllerState × List CallSession × List Effect :=
  match live.peerConnection with
  | some pc =>
    if pc.connectionState = .disconnected then endCallClosure captured live db now
    else (live, db, [])
  | none => (live, db, [])

/-- The `onicecandidate` handler, likewise installed once at
peer-connection creation: its guard reads the `currentCall` that
`initializePeerConnection` captured at install time (still unset on the
caller's path, where the handlers are installed before the created session
lands in React state), not the live one, and a discovered candidate is
sent on the captured call's broadcast channel. -/
def handleLocalCandidate (captured : ControllerState) (cand : Nat) : List Effect :=
  match captured.currentCall with
  | some cur => [.channelSend (.call cur.id) (.iceCandidate cand cur.id)]
  | none => []

/-- Every realtime channel the application ever subscribes to: `presence`
(usePresence), `call_events` (useVideoCall) and the `typing:` channel of the
currently selected chat peer (Chat page).  No per-call broadcast channel is
ever subscribed to. -/
def appSubscribedChannels (selectedChat : Nat) : List Channel :=
  [.presence, .callEvents, .typing selectedChat]

/-- Effects that belong to the answerer half of a negotiation: setting a
remote description, creating an answer, or sending an answer message. -/
def answerStep : Effect → Bool
  | .pcSetRemoteDescription _ => true
  | .pcCreateAnswer => true
  | .channelSend _ (.answer _ _) => true
  | _ => false

/-- Effects that write to the session store via `update`. -/
def isStoreUpdate : Effect → Bool
  | .storeUpdate _ _ => true
  | _ => false

/-- Effects that request local capture devices. -/
def isMediaRequest : Effect → Bool
  | .mediaRequest _ _ => true
  | _ => false

/-- Adding tracks to the peer connection is never an answerer-side step. -/
theorem addTrack_no_answerStep (l : List Track) :
    (l.map Effect.pcAddTrack).any answerStep = false := by
  induction l with
  | nil => rfl
  | cons t ts ih => simp [answerStep, ih]

/-- C1: the claim states that accepting a call runs the answerer path
(set the received offer as remote description, create an answer, set it as
local description, emit the answer).  In the code, `acceptCall` performs
none of these steps, and no handler anywhere in the repository receives the
offer broadcast: its effect trace contains no answerer-side step, and an
incoming offer broadcast leaves the controller, the store and the effect
trace untouched. -/
theorem c1_no_answer_path :
    (∀ s db callId mediaRes now,
       ((acceptCall s db callId mediaRes now).2.2).any answerStep = false) ∧
    (∀ userId s db now ch sdp cid ct,
       handleCallEvents userId s db now (.broadcastEvt ch (.callOffer sdp cid ct))
         = (s, db, [])) := by
  constructor
  · intro s db callId mediaRes now
    cases h : s.currentCall with
    | none => simp [acceptCall, h]
    | some cur =>
      cases mediaRes with
      | error e => simp [acceptCall, h, getUserMedia, answerStep]
      | ok stream => simp [acceptCall, h, getUserMedia, answerStep, addTrack_no_answerStep]
  · intro userId s db now ch sdp cid ct
    rfl

/-- C2: the claim states that a remote network-path candidate arriving
before the remote description is set is buffered and later applied.  In the
code no broadcast handler exists at all, so an incoming candidate message
leaves the controller state (including the peer connection), the store and
the effect trace completely unchanged: the candidate is neither buffered
nor ever applied; it is dropped. -/
theorem c2_candidates_dropped (userId : Nat) (s : ControllerState)
    (db : List CallSession) (now : Nat) (ch : Channel) (cand cid : Nat) :
    handleCallEvents userId s db now (.broadcastEvt ch (.iceCandidate cand cid))
      = (s, db, []) := rfl

/-- C10: calling `acceptCall` while the controller holds no current call
view is a complete no-op: controller state, store and effect trace are all
unchanged, whatever `callId` is passed. -/
theorem c10_accept_noop_without_current (s : ControllerState) (db : List CallSession)
    (callId : Nat) (mediaRes : Except MediaError (List Track)) (now : Nat)
    (h : s.currentCall = none) :
    acceptCall s db callId mediaRes now = (s, db, []) := by
  simp [acceptCall, h]

/-- Witness for C10: a concrete no-current-call state, with the store
holding a real pending session whose id is the one passed. -/
theorem c10_accept_noop_without_current_witness :
    acceptCall initState
      [{ id := 1, caller_id := 10, receiver_id := 20, call_type := .video,
         status := .pending, started_at := none, ended_at := none }]
      1 (.ok [{ kind := .video, enabled := true }]) 42
      = (initState,
         [{ id := 1, caller_id := 10, receiver_id := 20, call_type := .video,
            status := .pending, started_at := none, ended_at := none }], []) :=
  c10_accept_noop_without_current initState
    [{ id := 1, caller_id := 10, receiver_id := 20, call_type := .video,
       status := .pending, started_at := none, ended_at := none }]
    1 (.ok [{ kind := .video, enabled := true }]) 42 rfl

/-- Patches never touch the participant id fields of a row. -/
theorem applyUpdate_ids (u : CallUpdate) (r : CallSession) :
    (applyUpdate u r).caller_id = r.caller_id ∧
    (applyUpdate u r).receiver_id = r.receiver_id ∧
    (applyUpdate u r).id = r.id := by
  cases u <;> exact ⟨rfl, rfl, rfl⟩

/-- A concrete session record already in the terminal status `rejected`. -/
def rejectedRow : CallSession :=
  { id := 1, caller_id := 10, receiver_id := 20, call_type := .video,
    status := .rejected, started_at := none, ended_at := some 5 }

/-- A controller whose current call view holds `rejectedRow`. -/
def rejectedCallState : ControllerState :=
  { initState with currentCall := some rejectedRow }

/-- Counterexample to C3: a session record that is already in the terminal
status `rejected` is mutated by `endCall`, which overwrites it with status
`ended` and a fresh `ended_at` — the transition from `rejected` to `ended`
is not in the transition table, yet it succeeds and changes the record. -/
theorem c3_rejected_record_mutated :
    (endCall rejectedCallState [rejectedRow] 99).2.1
      = [{ id := 1, caller_id := 10, receiver_id := 20, call_type := .video,
           status := .ended, started_at := none, ended_at := some 99 }] ∧
    decide ((endCall rejectedCallState [rejectedRow] 99).2.1 = [rejectedRow]) = false := by
  exact ⟨rfl, rfl⟩

/-- C3 amended: the store keeps every status inside the five-value enum and
never deletes a record, but nothing guards transitions between statuses:
`endCall` overwrites the current call's record with status `ended` whatever
status — including a terminal one — the record currently has. -/
theorem c3_transitions_unguarded (s : ControllerState) (db : List CallSession)
    (now : Nat) (c : CallSession) (hc : s.currentCall = some c) :
    (endCall s db now).2.1 = updateWhere db c.id (.toEnded now) ∧
    ((endCall s db now).2.1).length = db.length ∧
    ∀ r ∈ db, r.id = c.id →
      { r with status := CallStatus.ended, ended_at := some now } ∈ (endCall s db now).2.1 := by
  have hdb : (endCall s db now).2.1 = updateWhere db c.id (.toEnded now) := by
    simp [endCall, hc]
  refine ⟨hdb, ?_, ?_⟩
  · rw [hdb]; simp [updateWhere]
  · intro r hr hid
    rw [hdb]
    have h2 : ({ r with status := CallStatus.ended, ended_at := some now } : CallSession)
        = if r.id = c.id then applyUpdate (.toEnded now) r else r := by
      rw [if_pos hid]; rfl
    rw [h2, updateWhere]
    exact List.mem_map_of_mem _ hr

/-- Witness for C3 amended: one rejected record, mutated to ended. -/
theorem c3_transitions_unguarded_witness :
    (endCall rejectedCallState [rejectedRow] 99).2.1
      = updateWhere [rejectedRow] 1 (.toEnded 99) :=
  (c3_transitions_unguarded rejectedCallState [rejectedRow] 99 rejectedRow rfl).1

/-- The row shape `insertCallSession` creates: status `pending`, no timestamps. -/
def freshRow (newId uid receiverId : Nat) (ct : CallType) : CallSession :=
  { id := newId, caller_id := uid, receiver_id := receiverId,
    call_type := ct, status := .pending, started_at := none, ended_at := none }

/-- The pending row created by a concrete `startCall` from user 10 to 20. -/
def pendingRow : CallSession := freshRow 1 10 20 .video

/-- Counterexample to C4: user 10 starts a video call to user 20 and the
platform denies media access.  The run ends with the session record still
in status `pending` — no store update (in particular no transition to a
terminal status) is ever issued; the failure is merely logged. -/
theorem c4_denied_leaves_pending :
    startCall (some 10) initState [] 20 .video 1 (.error .accessDenied) 7
      = ({ initState with currentCall := some pendingRow },
         [pendingRow],
         [.storeInsert pendingRow, .mediaRequest true true, .logError, .logError]) ∧
    ((startCall (some 10) initState [] 20 .video 1 (.error .accessDenied) 7).2.2).any
      isStoreUpdate = false ∧
    pendingRow.status = CallStatus.pending := by
  exact ⟨rfl, rfl, rfl⟩

/-- C4 amended: when local media acquisition fails, the error is caught and
logged, no retry is issued (exactly one media request appears in the trace)
— but the session is not driven to a terminal status.  After `startCall`
the record remains `pending`; `acceptCall` has already moved the record to
`accepted` before acquiring media and leaves it there. -/
theorem c4_media_failure_logged_only (s : ControllerState) (db : List CallSession)
    (uid receiverId : Nat) (ct : CallType) (newId sdp : Nat) (e : MediaError)
    (callId now : Nat) (cur : CallSession)
    (hne : uid ≠ receiverId) (hcur : s.currentCall = some cur) :
    (startCall (some uid) s db receiverId ct newId (.error e) sdp
      = ({ s with currentCall := some (freshRow newId uid receiverId ct) },
         db ++ [freshRow newId uid receiverId ct],
         [.storeInsert (freshRow newId uid receiverId ct),
          .mediaRequest (ct = .video) true, .logError, .logError])) ∧
    (acceptCall s db callId (.error e) now
      = ({ s with isCallActive := true, incomingCall := none },
         updateWhere db callId (.toAccepted now),
         [.storeUpdate callId (.toAccepted now),
          .mediaRequest (cur.call_type = .video) true, .logError, .logError])) := by
  constructor
  · simp [startCall, insertCallSession, hne, getUserMedia, freshRow]
  · simp [acceptCall, hcur, getUserMedia]

/-- Witness for C4 amended: concrete denied acquisition on both paths. -/
theorem c4_media_failure_logged_only_witness :
    (startCall (some 10) rejectedCallState [] 20 .video 1 (.error .accessDenied) 7
      = ({ rejectedCallState with currentCall := some (freshRow 1 10 20 .video) },
         [freshRow 1 10 20 .video],
         [.storeInsert (freshRow 1 10 20 .video),
          .mediaRequest true true, .logError, .logError])) ∧
    (acceptCall rejectedCallState [] 1 (.error .accessDenied) 42
      = ({ rejectedCallState with isCallActive := true, incomingCall := none },
         updateWhere [] 1 (.toAccepted 42),
         [.storeUpdate 1 (.toAccepted 42),
          .mediaRequest true true, .logError, .logError])) :=
  c4_media_failure_logged_only rejectedCallState [] 10 20 .video 1 7 .accessDenied
    1 42 rejectedRow (by decide) rfl

/-- C5: the claim states that the offer goes over a channel on which the
answerer is already subscribed.  In the code the offer is broadcast on the
per-call channel named by the new session id, but the only realtime
channels any component of the application ever subscribes to are
`presence`, `call_events` and a `typing:` channel — never a per-call
channel; and a broadcast arriving at the controller is not handled at all.
The offer is therefore sent on a channel with no subscriber and is lost. -/
theorem c5_offer_sent_to_unsubscribed_channel :
    (∀ cid peer, Channel.call cid ∉ appSubscribedChannels peer) ∧
    (∀ uid s db receiverId ct newId stream sdp, uid ≠ receiverId →
       Effect.channelSend (.call newId) (.callOffer sdp newId ct)
         ∈ (startCall (some uid) s db receiverId ct newId (.ok stream) sdp).2.2) ∧
    (∀ userId s db now ch msg,
       handleCallEvents userId s db now (.broadcastEvt ch msg) = (s, db, [])) := by
  refine ⟨?_, ?_, ?_⟩
  · intro cid peer
    simp [appSubscribedChannels]
  · intro uid s db receiverId ct newId stream sdp hne
    simp [startCall, insertCallSession, hne, getUserMedia, freshRow]
  · intro userId s db now ch msg
    rfl

/-- Witness for C5: the concrete offer send of `startCall` from user 10 to
user 20 lands on channel `call 1`, which is not among the subscribed
channels of the answerer, whatever chat peer is selected. -/
theorem c5_offer_sent_to_unsubscribed_channel_witness :
    Channel.call 1 ∉ appSubscribedChannels 20 ∧
    Effect.channelSend (.call 1) (.callOffer 7 1 .video)
      ∈ (startCall (some 10) initState [] 20 .video 1
          (.ok [{ kind := .video, enabled := true }]) 7).2.2 :=
  ⟨c5_offer_sent_to_unsubscribed_channel.1 1 20,
   c5_offer_sent_to_unsubscribed_channel.2.1 10 initState [] 20 .video 1
     [{ kind := .video, enabled := true }] 7 (by decide)⟩

/-- C6: teardown is idempotent.  First part: running `endCall` a second
time, right after a first run, leaves the state and the store exactly as
the first run left them and produces an empty effect trace — no second
store write, no second close of the peer connection, no second stop of any
track (and the operation is total, so no error).  Second part: on a state
that is already fully torn down, `endCall` is a complete no-op. -/
theorem c6_endCall_idempotent :
    (∀ s db now now2,
       endCall (endCall s db now).1 (endCall s db now).2.1 now2
         = ((endCall s db now).1, (endCall s db now).2.1, [])) ∧
    (∀ s db now, s.currentCall = none → s.peerConnection = none →
       s.localStream = none → s.remoteStream = none → s.isCallActive = false →
       s.incomingCall = none → endCall s db now = (s, db, [])) := by
  constructor
  · intro s db now now2
    rfl
  · intro s db now h1 h2 h3 h4 h5 h6
    obtain ⟨ls, rs, ica, ic, cc, ive, iae, pc⟩ := s
    simp only at h1 h2 h3 h4 h5 h6
    subst h1 h2 h3 h4 h5 h6
    rfl

/-- Witness for C6: a double teardown from a concrete mid-call state, and a
no-op teardown on the concrete initial (torn-down) state. -/
theorem c6_endCall_idempotent_witness :
    endCall (endCall rejectedCallState [rejectedRow] 99).1
        (endCall rejectedCallState [rejectedRow] 99).2.1 100
      = ((endCall rejectedCallState [rejectedRow] 99).1,
         (endCall rejectedCallState [rejectedRow] 99).2.1, []) ∧
    endCall initState [rejectedRow] 77 = (initState, [rejectedRow], []) :=
  ⟨c6_endCall_idempotent.1 rejectedCallState [rejectedRow] 99 100,
   c6_endCall_idempotent.2 initState [rejectedRow] 77 rfl rfl rfl rfl rfl rfl⟩

/-- C7: session records always have distinct participants.  The schema
check makes an insert with equal ids fail with a validation error and no
row is created; `startCall` to oneself leaves the state and store unchanged
(only logging the error, never reaching media or signaling); and both the
checked insert and the update path preserve the invariant that every row
has `caller_id` different from `receiver_id`. -/
theorem c7_caller_receiver_distinct :
    (∀ db newId uid ct, insertCallSession db newId uid uid ct = .error .checkViolation) ∧
    (∀ s db ct newId mediaRes sdp uid,
       startCall (some uid) s db uid ct newId mediaRes sdp = (s, db, [.logError])) ∧
    (∀ db newId caller receiver ct out,
       (∀ r ∈ db, r.caller_id ≠ r.receiver_id) →
       insertCallSession db newId caller receiver ct = .ok out →
       ∀ r ∈ out.1, r.caller_id ≠ r.receiver_id) ∧
    (∀ db id u, (∀ r ∈ db, r.caller_id ≠ r.receiver_id) →
       ∀ r ∈ updateWhere db id u, r.caller_id ≠ r.receiver_id) := by
  refine ⟨?_, ?_, ?_, ?_⟩
  · intro db newId uid ct
    simp [insertCallSession]
  · intro s db ct newId mediaRes sdp uid
    simp [startCall, insertCallSession]
  · intro db newId caller receiver ct out h hins r hr
    rw [insertCallSession] at hins
    split at hins
    · exact absurd hins (by simp)
    · rename_i hne
      rw [Except.ok.injEq] at hins
      subst hins
      rcases List.mem_append.1 hr with hmem | hmem
      · exact h r hmem
      · rcases List.mem_singleton.1 hmem with rfl
        exact hne
  · intro db id u h r hr
    rw [updateWhere] at hr
    rcases List.mem_map.1 hr with ⟨a, ha, rfl⟩
    have hids := applyUpdate_ids u a
    by_cases hid : a.id = id
    · rw [if_pos hid, hids.1, hids.2.1]
      exact h a ha
    · rw [if_neg hid]
      exact h a ha

/-- Witness for C7: a concrete self-call insert fails, a concrete
`startCall` to oneself is inert, and the invariant holds on the store
produced by one concrete successful insert. -/
theorem c7_caller_receiver_distinct_witness :
    insertCallSession [] 1 5 5 .video = .error .checkViolation ∧
    startCall (some 5) initState [] 5 .video 1 (.ok []) 7 = (initState, [], [.logError]) ∧
    pendingRow.caller_id ≠ pendingRow.receiver_id :=
  ⟨c7_caller_receiver_distinct.1 [] 1 5 .video,
   c7_caller_receiver_distinct.2.1 initState [] .video 1 (.ok []) 7 5,
   c7_caller_receiver_distinct.2.2.1 [] 1 10 20 .video ([pendingRow], pendingRow)
     (by simp) rfl pendingRow (by simp)⟩

/-- A fresh-closure call of the `endCall` closure body, with the captured
snapshot equal to the live state, is exactly `endCall`. -/
theorem endCallClosure_fresh (s : ControllerState) (db : List CallSession) (now : Nat) :
    endCallClosure s s db now = endCall s db now := rfl

/-- A concrete controller mid-call: current call `pendingRow`, a local
stream of one enabled video and one enabled audio track, and a peer
connection currently reporting `disconnected`. -/
def disconnectedState : ControllerState :=
  { localStream := some [{ kind := .video, enabled := true }, { kind := .audio, enabled := true }],
    remoteStream := none, isCallActive := true,
    incomingCall := none, currentCall := some pendingRow,
    isVideoEnabled := true, isAudioEnabled := true,
    peerConnection := some { localDescription := some 7, remoteDescription := none,
                             tracks := [], connectionState := .disconnected } }

/-- C8: the claim states that a `disconnected` report drives the session to
a terminal status, closes the peer connection and releases local media,
all locally.  The handler does fire locally, without any store or
signaling input — but it invokes the `endCall` closure captured when the
peer-connection handlers were installed.  With the install-time snapshots
(`localStream` still unset, since the acquired stream lands in React state
only after the installing render; and on the caller's path `currentCall`
still unset, since `setCurrentCall` has not rendered when
`initializePeerConnection` runs inside `startCall`), the disconnect path
stops no local track ever, and on the caller's path performs no store
write at all — the record stays non-terminal and the only effect is
closing the peer connection.  Only when the captured view held the call
(the answerer's path) is the record driven to `ended`. -/
theorem c8_stale_teardown (captured live : ControllerState) (db : List CallSession)
    (now : Nat) (pc : PeerConnection)
    (hpc : live.peerConnection = some pc) (hd : pc.connectionState = .disconnected)
    (hls : captured.localStream = none) :
    handleConnectionStateChange captured live db now
      = endCallClosure captured live db now ∧
    (∀ t : Track,
       Effect.trackStop t ∉ (handleConnectionStateChange captured live db now).2.2) ∧
    (captured.currentCall = none →
       (handleConnectionStateChange captured live db now).2.1 = db ∧
       (handleConnectionStateChange captured live db now).2.2 = [Effect.pcClose]) ∧
    (∀ c, captured.currentCall = some c →
       (handleConnectionStateChange captured live db now).2.1
         = updateWhere db c.id (.toEnded now)) ∧
    (handleConnectionStateChange captured live db now).1.peerConnection = none := by
  have h1 : handleConnectionStateChange captured live db now
      = endCallClosure captured live db now := by
    simp [handleConnectionStateChange, hpc, hd]
  refine ⟨h1, ?_, ?_, ?_, ?_⟩
  · intro t
    rw [h1]
    cases hc : captured.currentCall with
    | none => simp [endCallClosure, hc, hls, hpc]
    | some c => simp [endCallClosure, hc, hls, hpc]
  · intro hc
    rw [h1]
    exact ⟨by simp [endCallClosure, hc], by simp [endCallClosure, hc, hls, hpc]⟩
  · intro c hc
    rw [h1]
    simp [endCallClosure, hc]
  · rw [h1]; rfl

/-- Witness for C8: the caller's concrete disconnect.  The live state is
mid-call (`disconnectedState`), but the handlers were installed when the
React state was still `initState`; the store keeps the `pending` record
untouched, no track of the live local stream is stopped, and the only
effect is closing the peer connection. -/
theorem c8_stale_teardown_witness :
    handleConnectionStateChange initState disconnectedState [pendingRow] 50
      = endCallClosure initState disconnectedState [pendingRow] 50 ∧
    (handleConnectionStateChange initState disconnectedState [pendingRow] 50).2.1
      = [pendingRow] ∧
    (handleConnectionStateChange initState disconnectedState [pendingRow] 50).2.2
      = [Effect.pcClose] :=
  have h := c8_stale_teardown initState disconnectedState [pendingRow] 50
    { localDescription := some 7, remoteDescription := none,
      tracks := [], connectionState := .disconnected } rfl rfl rfl
  ⟨h.1, (h.2.2.1 rfl).1, (h.2.2.1 rfl).2⟩

/-- Flipping the first track of a kind preserves the kinds, the order and
the number of tracks in the stream. -/
theorem flipFirst_kinds (k : TrackKind) (ts : List Track) :
    (flipFirst k ts).map Track.kind = ts.map Track.kind ∧
    (flipFirst k ts).length = ts.length := by
  induction ts with
  | nil => exact ⟨rfl, rfl⟩
  | cons t rest ih =>
    by_cases h : t.kind = k
    · simp [flipFirst, h]
    · simp [flipFirst, h, ih.1, ih.2]

/-- C9: `toggleVideo` and `toggleAudio` emit no effect at all — no store
write (so the session's status is untouched), no signaling send, no
renegotiation step — and change none of the call-session fields of the
controller: current call, incoming call, peer connection, remote stream and
call-active flag are all preserved.  Their only action is on the local
stream: when a track of the toggled kind exists, its first occurrence has
its `enabled` flag flipped in place (kinds, order and count of the tracks
are preserved) and the corresponding enabled flag records the new value. -/
theorem c9_toggles_preserve_session (s : ControllerState) :
    (toggleVideo s).2 = [] ∧ (toggleAudio s).2 = [] ∧
    (toggleVideo s).1.currentCall = s.currentCall ∧
    (toggleVideo s).1.incomingCall = s.incomingCall ∧
    (toggleVideo s).1.peerConnection = s.peerConnection ∧
    (toggleVideo s).1.remoteStream = s.remoteStream ∧
    (toggleVideo s).1.isCallActive = s.isCallActive ∧
    (toggleAudio s).1.currentCall = s.currentCall ∧
    (toggleAudio s).1.incomingCall = s.incomingCall ∧
    (toggleAudio s).1.peerConnection = s.peerConnection ∧
    (toggleAudio s).1.remoteStream = s.remoteStream ∧
    (toggleAudio s).1.isCallActive = s.isCallActive ∧
    (∀ stream t, s.localStream = some stream → (getTracks .video stream).head? = some t →
       (toggleVideo s).1.localStream = some (flipFirst .video stream) ∧
       (toggleVideo s).1.isVideoEnabled = !t.enabled) ∧
    (∀ stream t, s.localStream = some stream → (getTracks .audio stream).head? = some t →
       (toggleAudio s).1.localStream = some (flipFirst .audio stream) ∧
       (toggleAudio s).1.isAudioEnabled = !t.enabled) ∧
    (∀ k ts, (flipFirst k ts).map Track.kind = ts.map Track.kind ∧
       (flipFirst k ts).length = ts.length) := by
  have hv : ∀ s1 : ControllerState, (toggleVideo s1).2 = [] ∧
      (toggleVideo s1).1.currentCall = s1.currentCall ∧
      (toggleVideo s1).1.incomingCall = s1.incomingCall ∧
      (toggleVideo s1).1.peerConnection = s1.peerConnection ∧
      (toggleVideo s1).1.remoteStream = s1.remoteStream ∧
      (toggleVideo s1).1.isCallActive = s1.isCallActive := by
    intro s1
    cases hls : s1.localStream with
    | none => simp [toggleVideo, hls]
    | some stream =>
      cases hhd : (getTracks .video stream).head? with
      | none => simp [toggleVideo, hls, hhd]
      | some t => simp [toggleVideo, hls, hhd]
  have ha : ∀ s1 : ControllerState, (toggleAudio s1).2 = [] ∧
      (toggleAudio s1).1.currentCall = s1.currentCall ∧
      (toggleAudio s1).1.incomingCall = s1.incomingCall ∧
      (toggleAudio s1).1.peerConnection = s1.peerConnection ∧
      (toggleAudio s1).1.remoteStream = s1.remoteStream ∧
      (toggleAudio s1).1.isCallActive = s1.isCallActive := by
    intro s1
    cases hls : s1.localStream with
    | none => simp [toggleAudio, hls]
    | some stream =>
      cases hhd : (getTracks .audio stream).head? with
      | none => simp [toggleAudio, hls, hhd]
      | some t => simp [toggleAudio, hls, hhd]
  refine ⟨(hv s).1, (ha s).1, (hv s).2.1, (hv s).2.2.1, (hv s).2.2.2.1,
          (hv s).2.2.2.2.1, (hv s).2.2.2.2.2,
          (ha s).2.1, (ha s).2.2.1, (ha s).2.2.2.1,
          (ha s).2.2.2.2.1, (ha s).2.2.2.2.2, ?_, ?_, flipFirst_kinds⟩
  · intro stream t hs ht
    simp [toggleVideo, hs, ht]
  · intro stream t hs ht
    simp [toggleAudio, hs, ht]

/-- Witness for C9: toggling video on a concrete mid-call state mutes the
first video track, emits nothing, and leaves the session untouched. -/
theorem c9_toggles_preserve_session_witness :
    (toggleVideo disconnectedState).2 = [] ∧
    (toggleVideo disconnectedState).1.currentCall = disconnectedState.currentCall ∧
    (toggleVideo disconnectedState).1.localStream
      = some (flipFirst .video
          [{ kind := .video, enabled := true }, { kind := .audio, enabled := true }]) ∧
    (toggleVideo disconnectedState).1.isVideoEnabled = !true :=
  ⟨(c9_toggles_preserve_session disconnectedState).1,
   (c9_toggles_preserve_session disconnectedState).2.2.1,
   ((c9_toggles_preserve_session disconnectedState).2.2.2.2.2.2.2.2.2.2.2.2.1
     [{ kind := .video, enabled := true }, { kind := .audio, enabled := true }]
     { kind := .video, enabled := true } rfl rfl).1,
   ((c9_toggles_preserve_session disconnectedState).2.2.2.2.2.2.2.2.2.2.2.2.1
     [{ kind := .video, enabled := true }, { kind := .audio, enabled := true }]
     { kind := .video, enabled := true } rfl rfl).2⟩
